import Mathlib

/-!
Verification development for the mysql-replay repository.

The repository reconstructs the MySQL wire protocol from captured traffic
(stream/mysql.go, a per-connection FSM plus binary decoders) and replays the
reconstructed events against a live server (sqlreplay.go, a replay handler
with a statement cache and retry or reconnect policy).

Bytes are modelled as natural numbers below 256 held in lists; machine
integers are Nat or Int with explicit two-complement conversion where the Go
code converts; Go functions returning (value, ok) become Option; Go panics
that the code catches with recover become a distinguished outcome mapped to
the error the recover handler produces.  Go loops driven by goto or by index
increments are modelled by structural recursion on an explicit iteration
count where noted; each such count matches the exact number of iterations the
Go loop performs.
-/

namespace MR

/-- Byte buffers: each element is one byte value. -/
abbrev Bytes := List Nat

/-! ### Protocol state constants

Modelled from the spec: the util package defining the numeric State*
constants is not under src; spec section 4.1 lists the states, and
stream/mysql.go StateName enumerates the same names.  The numeric values are
arbitrary distinct naturals; no code under src depends on their magnitude. -/

def StateInit : Nat := 0

def StateUnknown : Nat := 1

def StateComQuery : Nat := 2

def StateComQuery1 : Nat := 3

def StateComQuery2 : Nat := 4

def StateComStmtExecute : Nat := 5

def StateComStmtExecute1 : Nat := 6

def StateComStmtExecute2 : Nat := 7

def StateComStmtClose : Nat := 8

def StateComStmtPrepare0 : Nat := 9

def StateComStmtPrepare1 : Nat := 10

def StateComQuit : Nat := 11

def StateHandshake0 : Nat := 12

def StateHandshake1 : Nat := 13

def StateSkipPacket : Nat := 14

/-- The MySQL maximum frame payload size, 2^24 - 1.  The constant comes from
the go-sql-driver dependency (maxPacketSize); stream/mysql.go compares frame
payload lengths against it in Ready and load. -/
def maxPacketSize : Nat := 16777215

/-! ### Little-endian helpers and signed reinterpretation -/

/-- Two bytes little-endian, as in binary.LittleEndian.Uint16. -/
def le16 (b0 b1 : Nat) : Nat := b0 ||| (b1 <<< 8)

/-- Four bytes little-endian, as in binary.LittleEndian.Uint32. -/
def le32 (b0 b1 b2 b3 : Nat) : Nat :=
  b0 ||| (b1 <<< 8) ||| (b2 <<< 16) ||| (b3 <<< 24)

/-- Eight bytes little-endian, as in binary.LittleEndian.Uint64. -/
def le64 (b0 b1 b2 b3 b4 b5 b6 b7 : Nat) : Nat :=
  b0 ||| (b1 <<< 8) ||| (b2 <<< 16) ||| (b3 <<< 24) |||
  (b4 <<< 32) ||| (b5 <<< 40) ||| (b6 <<< 48) ||| (b7 <<< 56)

/-- Reinterpret a byte as Go int8. -/
def int8Of (b : Nat) : Int := if b < 0x80 then (b : Int) else (b : Int) - 0x100

/-- Reinterpret a 16-bit value as Go int16. -/
def int16Of (v : Nat) : Int := if v < 0x8000 then (v : Int) else (v : Int) - 0x10000

/-- Reinterpret a 32-bit value as Go int32. -/
def int32Of (v : Nat) : Int :=
  if v < 0x80000000 then (v : Int) else (v : Int) - 0x100000000

/-- Reinterpret a 64-bit value as Go int64. -/
def int64Of (v : Nat) : Int :=
  if v < 0x8000000000000000 then (v : Int) else (v : Int) - 0x10000000000000000

/-! ### C9: ConvertResToStr (stream/mysql.go lines 128-152) -/

/-- Embeds ConvertResToStr.  A replay-side column value is nil or a string
(ReadRowValues appends exactly those, see below), so cells are Option String.
The nil branch is literal from the source: a nil driver.Value becomes the
empty string, with the source comment noting that nil can then no longer be
distinguished from a length-0 string.  For a non-nil cell the source calls
ConvertAssignRows, which on a string value yields that string unchanged (the
database/sql convertAssignRows collaborator; identity on strings). -/
def ConvertResToStr (v : List (List (Option String))) : List (List String) :=
  v.map (fun row => row.map (fun c =>
    match c with
    | none => ""
    | some s => s))

/-! ### C2: ReadRowValues (sqlreplay.go lines 694-722) -/

/-- One column value of a row fetched from the replay server, as seen by
ReadRowValues: either the nil driver.Value, or a non-nil value carrying the
outcome of ConvertAssignRows on it (some s: converts to the display string s;
none: the conversion returns an error).  ConvertAssignRows itself is driver
collaborator code outside src, so only its outcome is modelled. -/
inductive CellV where
  | null
  | val (conv : Option String)
deriving DecidableEq

/-- The loop body of ReadRowValues: walks the fetched columns accumulating
rr, threading the single err variable exactly as the Go code does (err is
reassigned by every ConvertAssignRows call, so a later success overwrites an
earlier failure).  The Bool is true when err is non-nil. -/
def readRowLoop : List CellV → List (Option String) → Bool → List (Option String) × Bool
  | [], rr, err => (rr, err)
  | .null :: z, rr, err => readRowLoop z (rr ++ [none]) err
  | .val c :: z, rr, _ =>
    match c with
    | some a => readRowLoop z (rr ++ [some a]) false
    | none => readRowLoop z rr true

/-- Embeds ReadRowValues: reads the last-fetched column values, converts each
non-nil one, and appends the accumulated row to the event replay-side row
list only when the final value of err is nil. -/
def ReadRowValues (z : List CellV) (colValues : List (List (Option String))) :
    List (List (Option String)) :=
  let p := readRowLoop z [] false
  if p.2 then colValues else colValues ++ [p.1]

/-! ### C10: the two length-encoded integer decoders
(stream/mysql.go lines 1068-1105 and 1161-1185) -/

/-- Embeds parseLengthEncodedInt.  Result: (value, isNull, bytes consumed).
The Go code indexes b without bounds checks, so an access past the end of the
buffer panics; that outcome is modelled as none. -/
def parseLengthEncodedInt (b : Bytes) : Option (Nat × Bool × Nat) :=
  match b.get? 0 with
  | none => none
  | some b0 =>
    if b0 = 0xfb then some (0, true, 1)
    else if b0 = 0xfc then
      match b.get? 1, b.get? 2 with
      | some x1, some x2 => some (le16 x1 x2, false, 3)
      | _, _ => none
    else if b0 = 0xfd then
      match b.get? 1, b.get? 2, b.get? 3 with
      | some x1, some x2, some x3 => some (x1 ||| (x2 <<< 8) ||| (x3 <<< 16), false, 4)
      | _, _, _ => none
    else if b0 = 0xfe then
      match b.get? 1, b.get? 2, b.get? 3, b.get? 4, b.get? 5, b.get? 6, b.get? 7, b.get? 8 with
      | some x1, some x2, some x3, some x4, some x5, some x6, some x7, some x8 =>
        some (le64 x1 x2 x3 x4 x5 x6 x7 x8, false, 9)
      | _, _, _, _, _, _, _, _ => none
    else some (b0, false, 1)

/-- First eight bytes big-endian, as in binary.BigEndian.Uint64. -/
def be64 (b : Bytes) : Nat :=
  ((b.getD 0 0) <<< 56) ||| ((b.getD 1 0) <<< 48) ||| ((b.getD 2 0) <<< 40) |||
  ((b.getD 3 0) <<< 32) ||| ((b.getD 4 0) <<< 24) ||| ((b.getD 5 0) <<< 16) |||
  ((b.getD 6 0) <<< 8) ||| (b.getD 7 0)

/-- Embeds readLenEncUint.  Result on success: (value, remaining bytes); the
Go (0, data, false) failure returns become none.  Note the source assembles
the 2-, 3- and 8-byte forms with the HIGH byte first (data[1] is shifted
left), unlike parseLengthEncodedInt. -/
def readLenEncUint (data : Bytes) : Option (Nat × Bytes) :=
  if data.length < 1 then none
  else
    let b0 := data.getD 0 0
    if b0 < 0xfb then some (b0, data.drop 1)
    else if b0 = 0xfc then
      if data.length < 3 then none
      else some ((data.getD 2 0) ||| ((data.getD 1 0) <<< 8), data.drop 3)
    else if b0 = 0xfd then
      if data.length < 4 then none
      else some ((data.getD 3 0) ||| ((data.getD 2 0) <<< 8) ||| ((data.getD 1 0) <<< 16),
        data.drop 4)
    else if b0 = 0xfe then
      if data.length < 9 then none
      else some (be64 (data.drop 1), data.drop 9)
    else none

/-! ### C6/C7: execute-parameter decoding
(stream/mysql.go parseExecParams lines 857-1011 and the binary date/time
helpers lines 1013-1064) -/

/-- MySQL field type codes, from the go-sql-driver const definitions the
source imports; the values are fixed by the wire protocol. -/
def fieldTypeDecimal : Nat := 0

def fieldTypeTiny : Nat := 1

def fieldTypeShort : Nat := 2

def fieldTypeLong : Nat := 3

def fieldTypeFloat : Nat := 4

def fieldTypeDouble : Nat := 5

def fieldTypeNULL : Nat := 6

def fieldTypeTimestamp : Nat := 7

def fieldTypeLongLong : Nat := 8

def fieldTypeInt24 : Nat := 9

def fieldTypeDate : Nat := 10

def fieldTypeTime : Nat := 11

def fieldTypeDateTime : Nat := 12

def fieldTypeYear : Nat := 13

def fieldTypeVarChar : Nat := 15

def fieldTypeBit : Nat := 16

def fieldTypeNewDecimal : Nat := 246

def fieldTypeEnum : Nat := 247

def fieldTypeSet : Nat := 248

def fieldTypeTinyBLOB : Nat := 249

def fieldTypeMediumBLOB : Nat := 250

def fieldTypeLongBLOB : Nat := 251

def fieldTypeBLOB : Nat := 252

def fieldTypeVarString : Nat := 253

def fieldTypeString : Nat := 254

def fieldTypeGeometry : Nat := 255

/-- Decimal rendering padded with leading zeros to width w, as Go Sprintf
with a 0w width verb (numbers wider than w print in full). -/
def padNum (w n : Nat) : String :=
  let s := toString n
  String.mk (List.replicate (w - s.length) '0') ++ s

/-- Embeds parseBinaryDate: year (2 bytes LE), month, day, rendered
"%04d-%02d-%02d".  The source slices paramValues without bounds checks, so a
short buffer panics; that outcome is none. -/
def parseBinaryDate (pos : Nat) (paramValues : Bytes) : Option (Nat × String) :=
  match paramValues.get? pos, paramValues.get? (pos + 1),
      paramValues.get? (pos + 2), paramValues.get? (pos + 3) with
  | some y0, some y1, some mo, some d =>
    some (pos + 4, padNum 4 (le16 y0 y1) ++ "-" ++ padNum 2 mo ++ "-" ++ padNum 2 d)
  | _, _, _, _ => none

/-- Embeds parseBinaryDateTimeReply: date then hour, minute, second,
rendered "%s %02d:%02d:%02d". -/
def parseBinaryDateTimeReply (pos : Nat) (paramValues : Bytes) : Option (Nat × String) :=
  match parseBinaryDate pos paramValues with
  | none => none
  | some (p, date) =>
    match paramValues.get? p, paramValues.get? (p + 1), paramValues.get? (p + 2) with
    | some hh, some mi, some ss =>
      some (p + 3, date ++ " " ++ padNum 2 hh ++ ":" ++ padNum 2 mi ++ ":" ++ padNum 2 ss)
    | _, _, _ => none

/-- Embeds parseBinaryTimestamp: datetime then microseconds (4 bytes LE),
rendered "%s.%06d". -/
def parseBinaryTimestamp (pos : Nat) (paramValues : Bytes) : Option (Nat × String) :=
  match parseBinaryDateTimeReply pos paramValues with
  | none => none
  | some (p, dt) =>
    match paramValues.get? p, paramValues.get? (p + 1),
        paramValues.get? (p + 2), paramValues.get? (p + 3) with
    | some m0, some m1, some m2, some m3 =>
      some (p + 4, dt ++ "." ++ padNum 6 (le32 m0 m1 m2 m3))
    | _, _, _, _ => none

/-- Embeds parseBinaryTime: sign, days (4 bytes LE), hours, minutes,
seconds, rendered "%s%d %02d:%02d:%02d". -/
def parseBinaryTime (pos : Nat) (paramValues : Bytes) (isNegative : Nat) :
    Option (Nat × String) :=
  let sign := if isNegative = 1 then "-" else ""
  match paramValues.get? pos, paramValues.get? (pos + 1),
      paramValues.get? (pos + 2), paramValues.get? (pos + 3) with
  | some d0, some d1, some d2, some d3 =>
    match paramValues.get? (pos + 4), paramValues.get? (pos + 5),
        paramValues.get? (pos + 6) with
    | some hh, some mi, some ss =>
      some (pos + 7, sign ++ toString (le32 d0 d1 d2 d3) ++ " " ++
        padNum 2 hh ++ ":" ++ padNum 2 mi ++ ":" ++ padNum 2 ss)
    | _, _, _ => none
  | _, _, _, _ => none

/-- Embeds parseBinaryTimeWithMS: time then microseconds, "%s.%06d". -/
def parseBinaryTimeWithMS (pos : Nat) (paramValues : Bytes) (isNegative : Nat) :
    Option (Nat × String) :=
  match parseBinaryTime pos paramValues isNegative with
  | none => none
  | some (p, dur) =>
    match paramValues.get? p, paramValues.get? (p + 1),
        paramValues.get? (p + 2), paramValues.get? (p + 3) with
    | some m0, some m1, some m2, some m3 =>
      some (p + 4, dur ++ "." ++ padNum 6 (le32 m0 m1 m2 m3))
    | _, _, _, _ => none

/-- One decoded statement parameter (a Go interface value).  Floats are kept
as their IEEE-754 bit patterns; string-typed families keep the text bytes
(Go string(v) preserves bytes), blob families keep raw bytes; date and time
values are the formatted strings the source builds. -/
inductive PVal where
  | pnull
  | uintv (n : Nat)
  | intv (z : Int)
  | fbits32 (bits : Nat)
  | fbits64 (bits : Nat)
  | txt (bs : List Nat)
  | blob (bs : List Nat)
  | timev (s : String)
deriving DecidableEq

/-- A prepared-statement record as in stream/mysql.go Stmt: server id,
source text, parameter count, cached parameter-type vector. -/
structure StmtRec where
  ID : Nat
  Query : String
  NumParams : Nat
  types : Option (List Nat)
deriving DecidableEq

/-- Outcome of the parseExecParams body: decoded parameters, an error
return, or a Go panic (out-of-bounds access) before recover. -/
inductive ExecParamsRes where
  | ok (ps : List PVal)
  | fail (msg : String)
  | crashed
deriving DecidableEq

/-- Outcome of parseLengthEncodedBytes: bytes plus null flag plus total
consumed, the io.EOF error return, or a panic from the unchecked indexing in
parseLengthEncodedInt. -/
inductive LEBRes where
  | ok (v : List Nat) (isNull : Bool) (n : Nat)
  | eofErr
  | crashed
deriving DecidableEq

/-- Embeds parseLengthEncodedBytes (stream/mysql.go lines 1108-1123): reads
the length header, then the data when the buffer holds it, io.EOF
otherwise; a zero or null length returns a nil slice with the header
consumed. -/
def parseLengthEncodedBytes (b : Bytes) : LEBRes :=
  match parseLengthEncodedInt b with
  | none => .crashed
  | some (num, isNull, n) =>
    if num < 1 then .ok [] isNull n
    else
      let n2 := n + num
      if b.length ≥ n2 then .ok ((b.drop n).take num) false n2
      else .eofErr

/-- The parameter loop of parseExecParams, structurally recursive on the
number of parameters left to decode (the Go loop runs i from 0 to
stmt.NumParams-1); i and pos are the loop indices, acc the decoded values in
reverse.  Every Go statement of the loop body is mirrored, including which
reads are bounds-checked (returning a named error) and which ones index
blindly (panicking, outcome crashed). -/
def parseExecParamsLoop (nullBitmap paramTypes paramValues : Bytes) :
    Nat → Nat → Nat → List PVal → ExecParamsRes
  | 0, _, _, acc => .ok acc.reverse
  | r + 1, i, pos, acc =>
    match nullBitmap.get? (i >>> 3) with
    | none => .crashed
    | some nb =>
      if nb &&& (1 <<< (i % 8)) > 0 then
        parseExecParamsLoop nullBitmap paramTypes paramValues r (i + 1) pos (.pnull :: acc)
      else if 2 * i + 1 ≥ paramTypes.length then .fail "malformed types"
      else
        let tp := paramTypes.getD (2 * i) 0
        let unsignedF := paramTypes.getD (2 * i + 1) 0 &&& 0x80 > 0
        if tp = fieldTypeNULL then
          parseExecParamsLoop nullBitmap paramTypes paramValues r (i + 1) pos (.pnull :: acc)
        else if tp = fieldTypeTiny then
          if paramValues.length < pos + 1 then .fail "malformed values"
          else
            let b := paramValues.getD pos 0
            let v := if unsignedF then PVal.uintv b else PVal.intv (int8Of b)
            parseExecParamsLoop nullBitmap paramTypes paramValues r (i + 1) (pos + 1) (v :: acc)
        else if tp = fieldTypeShort ∨ tp = fieldTypeYear then
          if paramValues.length < pos + 2 then .fail "malformed values"
          else
            let w := le16 (paramValues.getD pos 0) (paramValues.getD (pos + 1) 0)
            let v := if unsignedF then PVal.uintv w else PVal.intv (int16Of w)
            parseExecParamsLoop nullBitmap paramTypes paramValues r (i + 1) (pos + 2) (v :: acc)
        else if tp = fieldTypeInt24 ∨ tp = fieldTypeLong then
          if paramValues.length < pos + 4 then .fail "malformed values"
          else
            let w := le32 (paramValues.getD pos 0) (paramValues.getD (pos + 1) 0)
              (paramValues.getD (pos + 2) 0) (paramValues.getD (pos + 3) 0)
            let v := if unsignedF then PVal.uintv w else PVal.intv (int32Of w)
            parseExecParamsLoop nullBitmap paramTypes paramValues r (i + 1) (pos + 4) (v :: acc)
        else if tp = fieldTypeLongLong then
          if paramValues.length < pos + 8 then .fail "malformed values"
          else
            let w := le64 (paramValues.getD pos 0) (paramValues.getD (pos + 1) 0)
              (paramValues.getD (pos + 2) 0) (paramValues.getD (pos + 3) 0)
              (paramValues.getD (pos + 4) 0) (paramValues.getD (pos + 5) 0)
              (paramValues.getD (pos + 6) 0) (paramValues.getD (pos + 7) 0)
            let v := if unsignedF then PVal.uintv w else PVal.intv (int64Of w)
            parseExecParamsLoop nullBitmap paramTypes paramValues r (i + 1) (pos + 8) (v :: acc)
        else if tp = fieldTypeFloat then
          if paramValues.length < pos + 4 then .fail "malformed values"
          else
            let w := le32 (paramValues.getD pos 0) (paramValues.getD (pos + 1) 0)
              (paramValues.getD (pos + 2) 0) (paramValues.getD (pos + 3) 0)
            parseExecParamsLoop nullBitmap paramTypes paramValues r (i + 1) (pos + 4)
              (.fbits32 w :: acc)
        else if tp = fieldTypeDouble then
          if paramValues.length < pos + 8 then .fail "malformed values"
          else
            let w := le64 (paramValues.getD pos 0) (paramValues.getD (pos + 1) 0)
              (paramValues.getD (pos + 2) 0) (paramValues.getD (pos + 3) 0)
              (paramValues.getD (pos + 4) 0) (paramValues.getD (pos + 5) 0)
              (paramValues.getD (pos + 6) 0) (paramValues.getD (pos + 7) 0)
            parseExecParamsLoop nullBitmap paramTypes paramValues r (i + 1) (pos + 8)
              (.fbits64 w :: acc)
        else if tp = fieldTypeDate ∨ tp = fieldTypeTimestamp ∨ tp = fieldTypeDateTime then
          if paramValues.length < pos + 1 then .fail "malformed values"
          else
            let len := paramValues.getD pos 0
            let pos1 := pos + 1
            if len = 0 then
              parseExecParamsLoop nullBitmap paramTypes paramValues r (i + 1) pos1
                (.timev "0000-00-00 00:00:00" :: acc)
            else if len = 4 then
              match parseBinaryDate pos1 paramValues with
              | none => .crashed
              | some (p2, s) =>
                parseExecParamsLoop nullBitmap paramTypes paramValues r (i + 1) p2
                  (.timev s :: acc)
            else if len = 7 then
              match parseBinaryDateTimeReply pos1 paramValues with
              | none => .crashed
              | some (p2, s) =>
                parseExecParamsLoop nullBitmap paramTypes paramValues r (i + 1) p2
                  (.timev s :: acc)
            else if len = 11 then
              match parseBinaryTimestamp pos1 paramValues with
              | none => .crashed
              | some (p2, s) =>
                parseExecParamsLoop nullBitmap paramTypes paramValues r (i + 1) p2
                  (.timev s :: acc)
            else .fail "malformed values"
        else if tp = fieldTypeTime then
          if paramValues.length < pos + 1 then .fail "malformed values"
          else
            let len := paramValues.getD pos 0
            let pos1 := pos + 1
            if len = 0 then
              parseExecParamsLoop nullBitmap paramTypes paramValues r (i + 1) pos1
                (.pnull :: acc)
            else if len = 8 then
              match paramValues.get? pos1 with
              | none => .crashed
              | some sign =>
                if sign > 1 then .fail "malformed values"
                else
                  match parseBinaryTime (pos1 + 1) paramValues sign with
                  | none => .crashed
                  | some (p2, s) =>
                    parseExecParamsLoop nullBitmap paramTypes paramValues r (i + 1) p2
                      (.timev s :: acc)
            else if len = 12 then
              match paramValues.get? pos1 with
              | none => .crashed
              | some sign =>
                if sign > 1 then .fail "malformed values"
                else
                  match parseBinaryTimeWithMS (pos1 + 1) paramValues sign with
                  | none => .crashed
                  | some (p2, s) =>
                    parseExecParamsLoop nullBitmap paramTypes paramValues r (i + 1) p2
                      (.timev s :: acc)
            else .fail "malformed values"
        else if tp = fieldTypeNewDecimal ∨ tp = fieldTypeDecimal ∨ tp = fieldTypeVarChar ∨
            tp = fieldTypeVarString ∨ tp = fieldTypeString ∨ tp = fieldTypeEnum ∨
            tp = fieldTypeSet ∨ tp = fieldTypeGeometry ∨ tp = fieldTypeBit then
          if paramValues.length < pos + 1 then .fail "malformed values"
          else
            match parseLengthEncodedBytes (paramValues.drop pos) with
            | .crashed => .crashed
            | .eofErr => .fail "EOF"
            | .ok v isNull n =>
              let pv := if isNull then PVal.pnull else PVal.txt v
              parseExecParamsLoop nullBitmap paramTypes paramValues r (i + 1) (pos + n)
                (pv :: acc)
        else if tp = fieldTypeBLOB ∨ tp = fieldTypeTinyBLOB ∨ tp = fieldTypeMediumBLOB ∨
            tp = fieldTypeLongBLOB then
          if paramValues.length < pos + 1 then .fail "malformed values"
          else
            match parseLengthEncodedBytes (paramValues.drop pos) with
            | .crashed => .crashed
            | .eofErr => .fail "EOF"
            | .ok v isNull n =>
              let pv := if isNull then PVal.pnull else PVal.blob v
              parseExecParamsLoop nullBitmap paramTypes paramValues r (i + 1) (pos + n)
                (pv :: acc)
        else .fail "unknown field type"

/-- The body of parseExecParams before the deferred recover. -/
def parseExecParamsRaw (stmt : StmtRec) (nullBitmap paramTypes paramValues : Bytes) :
    ExecParamsRes :=
  parseExecParamsLoop nullBitmap paramTypes paramValues stmt.NumParams 0 0 []

/-- Embeds parseExecParams including its deferred recover, which turns any
panic of the body into the "malformed packet" error return. -/
def parseExecParams (stmt : StmtRec) (nullBitmap paramTypes paramValues : Bytes) :
    ExecParamsRes :=
  match parseExecParamsRaw stmt nullBitmap paramTypes paramValues with
  | .crashed => .fail "malformed packet"
  | r => r

/-! ### C7 caller: handleComStmtExecuteNoLoad (stream/mysql.go lines 547-625)
and the byte readers it uses (lines 1126-1147) -/

/-- Embeds readUint16: (value, rest) or failure on a short buffer. -/
def readUint16 (data : Bytes) : Option (Nat × Bytes) :=
  if data.length < 2 then none
  else some (le16 (data.getD 0 0) (data.getD 1 0), data.drop 2)

/-- Embeds readUint32: (value, rest) or failure on a short buffer. -/
def readUint32 (data : Bytes) : Option (Nat × Bytes) :=
  if data.length < 4 then none
  else some (le32 (data.getD 0 0) (data.getD 1 0) (data.getD 2 0) (data.getD 3 0),
    data.drop 4)

/-- Embeds readBytesN: (first n bytes, rest) or failure on a short buffer. -/
def readBytesN (data : Bytes) (n : Nat) : Option (Bytes × Bytes) :=
  if data.length < n then none
  else some (data.take n, data.drop n)

/-- Lookup in the FSM statement table (Go map indexing by statement id). -/
def lookupN : List (Nat × StmtRec) → Nat → Option StmtRec
  | [], _ => none
  | (k, v) :: rest, id => if k = id then some v else lookupN rest id

/-- The FSM fields handleComStmtExecuteNoLoad writes: the session state, the
statement table, and the per-command scratch (fsm.stmt and fsm.params, set
only on the success path). -/
structure ExecNoLoadOut where
  state : Nat
  stmts : List (Nat × StmtRec)
  stmt : Option StmtRec
  params : List PVal
deriving DecidableEq

/-- The tail of handleComStmtExecuteNoLoad after parseExecParams returns:
on success set the scratch statement and parameters and enter
ComStmtExecute; on any decode error enter Unknown (fsm.set with the reason
string, which the state model does not retain). -/
def finishExec (stmts : List (Nat × StmtRec)) (stmt : StmtRec) (res : ExecParamsRes) :
    ExecNoLoadOut :=
  match res with
  | .ok ps => ⟨StateComStmtExecute, stmts, some stmt, ps⟩
  | .fail _ => ⟨StateUnknown, stmts, none, []⟩
  | .crashed => ⟨StateUnknown, stmts, none, []⟩

/-- Embeds handleComStmtExecuteNoLoad.  Input: the statement table and the
reassembled command payload (fsm.data, whose first byte is the command
code).  Every failure branch calls fsm.set(StateUnknown, reason); a
successful decode sets fsm.stmt, fsm.params and StateComStmtExecute.  When
the payload carries fresh parameter types (flag byte 1) the statement table
is updated before parameters are parsed, as in the source. -/
def handleComStmtExecuteNoLoad (stmts : List (Nat × StmtRec)) (payload : Bytes) :
    ExecNoLoadOut :=
  match readUint32 (payload.drop 1) with
  | none => ⟨StateUnknown, stmts, none, []⟩
  | some (id, data1) =>
    match lookupN stmts id with
    | none => ⟨StateUnknown, stmts, none, []⟩
    | some stmt =>
      match readBytesN data1 5 with
      | none => ⟨StateUnknown, stmts, none, []⟩
      | some (_, data2) =>
        if 0 < stmt.NumParams then
          match readBytesN data2 ((stmt.NumParams + 7) >>> 3) with
          | none => ⟨StateUnknown, stmts, none, []⟩
          | some (nullBitmaps, data3) =>
            if data3.length < 1 + 2 * stmt.NumParams then ⟨StateUnknown, stmts, none, []⟩
            else if data3.getD 0 0 = 1 then
              let paramTypes := (data3.drop 1).take (2 * stmt.NumParams)
              let paramValues := data3.drop (1 + 2 * stmt.NumParams)
              let stmt2 := { stmt with types := some paramTypes }
              let stmts2 := (id, stmt2) :: stmts
              finishExec stmts2 stmt2 (parseExecParams stmt2 nullBitmaps paramTypes paramValues)
            else
              match stmt.types with
              | none => ⟨StateUnknown, stmts, none, []⟩
              | some tps =>
                finishExec stmts stmt (parseExecParams stmt nullBitmaps tps (data3.drop 1))
        else ⟨StateComStmtExecute, stmts, some stmt, []⟩

/-! ### C4/C8: the frame buffer of the protocol FSM
(stream/mysql.go Handle lines 302-331, InitValue lines 285-300, nextSeq
lines 394-400, load lines 402-424, Ready lines 278-281) -/

/-- One captured protocol frame, with the fields stream/mysql.go reads:
sequence number, payload length, payload bytes, capture timestamp (as
UnixNano), direction (true: client to server).  The struct itself lives in
the packet-capture layer of the stream package, outside src; the fields are
exactly those the src code dereferences. -/
structure MySQLPacket where
  Seq : Nat
  Len : Nat
  Data : Bytes
  Time : Nat
  Dir : Bool
deriving DecidableEq, Inhabited

/-- The PacketRes fields InitValue resets (rows pointers modelled by
whether they are non-nil). -/
structure PacketResM where
  readColEnd : Bool
  packetnum : Nat
  columnNum : Nat
  sqlBeginTime : Nat
  sqlEndTime : Nat
  bRowsSet : Bool
  tRowsSet : Bool
  ifReadColEndEofPacket : Bool
  ifReadResEnd : Bool
deriving DecidableEq

/-- The fresh PacketRes that InitValue installs. -/
def freshPacketRes : PacketResM := ⟨false, 0, 0, 0, 0, false, false, false, false⟩

/-- The MySQLFSM fields that the frame-buffering phase of Handle touches:
state, changed, the frame buffer, and the per-command result scratch.  The
remaining fields (query, stmt, params, stmts, schema, username, data, start,
count) are written only by the classification and result-reading phases. -/
structure FSM where
  state : Nat
  changed : Bool
  packets : List MySQLPacket
  pr : PacketResM
deriving DecidableEq

/-- Embeds MySQLFSM.set restricted to the fields modelled: state := to,
changed := (from != to).  Logging is a side effect only. -/
def setState (fsm : FSM) (toSt : Nat) : FSM :=
  { fsm with state := toSt, changed := fsm.state != toSt }

/-- Embeds MySQLFSM.setStatusWithNoChange: only the state changes. -/
def setStatusWithNoChange (fsm : FSM) (toSt : Nat) : FSM :=
  { fsm with state := toSt }

/-- Embeds MySQLFSM.InitValue: set(StateInit), install a fresh PacketRes,
truncate the frame buffer. -/
def InitValue (fsm : FSM) : FSM :=
  let fsm1 := setState fsm StateInit
  { fsm1 with pr := freshPacketRes, packets := [] }

/-- Embeds MySQLFSM.nextSeq: 0 on an empty buffer, else the last buffered
sequence number plus one reduced to a uint8. -/
def nextSeq (fsm : FSM) : Nat :=
  match fsm.packets.getLast? with
  | none => 0
  | some p => (p.Seq + 1) % 256

/-- Embeds MySQLFSM.Ready: the most recently buffered frame payload is
strictly shorter than the maximum frame size. -/
def Ready (fsm : FSM) : Bool :=
  match fsm.packets.getLast? with
  | none => false
  | some p => p.Len < maxPacketSize

/-- Embeds the frame-buffering phase of MySQLFSM.Handle (lines 302-331):
clear changed; ignore everything in ComQuit; on a seq-0 frame outside the
two mid-result-read states reinitialize and buffer just this frame,
recording the begin timestamp; on the expected next sequence number append
the frame; otherwise move to SkipPacket and discard the frame.  The phases
Handle runs after this one (behind the Ready gate: classification and
result reading) never modify the packet buffer, so the buffer facts below
hold for the whole Handle call. -/
def Handle (fsm : FSM) (pkt : MySQLPacket) : FSM :=
  let fsm0 := { fsm with changed := false }
  if fsm0.state = StateComQuit then fsm0
  else if pkt.Seq = 0 ∧ fsm0.state ≠ StateComQuery1 ∧ fsm0.state ≠ StateComStmtExecute1 then
    let fsm1 := InitValue fsm0
    let fsm2 := { fsm1 with pr := { fsm1.pr with sqlBeginTime := pkt.Time } }
    { fsm2 with packets := fsm2.packets ++ [pkt] }
  else if nextSeq fsm0 = pkt.Seq then
    { fsm0 with packets := fsm0.packets ++ [pkt] }
  else
    setStatusWithNoChange fsm0 StateSkipPacket

/-- The inner scan of MySQLFSM.load: from index j, advance over frames whose
payload length equals the maximum frame size and return the index of the
first shorter frame (the terminator), or none when the scan reaches the end
of the buffer.  Structural recursion on the number of frames left to
inspect; the wrapper below supplies exactly ps.length - j, the number of
iterations the Go inner loop can perform from j. -/
def seekEndN (ps : List MySQLPacket) (j : Nat) : Nat → Option Nat
  | 0 => none
  | n + 1 =>
    if (ps.getD j default).Len = maxPacketSize then seekEndN ps (j + 1) n
    else some j

/-- The inner scan of MySQLFSM.load started at index j. -/
def seekEnd (ps : List MySQLPacket) (j : Nat) : Option Nat :=
  seekEndN ps j (ps.length - j)

/-- The outer loop of MySQLFSM.load: i walks the segment starts 0, j0+1,
j1+1, ...; when the segment starting at i terminates at j and i = k the scan
succeeds with j.  Structural recursion on a fuel bound; load supplies
ps.length + 1, more iterations than the Go loop can make since i strictly
increases while i < ps.length. -/
def loadLoopF : Nat → List MySQLPacket → Nat → Nat → Option Nat
  | 0, _, _, _ => none
  | f + 1, ps, k, i =>
    if i < ps.length then
      match seekEnd ps i with
      | none => none
      | some j => if i = k then some j else loadLoopF f ps k (j + 1)
    else none

/-- The write-out loop of MySQLFSM.load: concatenate the payloads of n
consecutive frames starting at index k (the Go loop `for k <= j` runs
j+1-k times). -/
def writeDataN (ps : List MySQLPacket) (k : Nat) : Nat → Bytes
  | 0 => []
  | n + 1 => (ps.getD k default).Data ++ writeDataN ps (k + 1) n

/-- Embeds MySQLFSM.load k: on success the working buffer holds the
concatenated payloads of frames k..j and start, count are set to k, j-k+1;
on failure nothing is loaded (the Go function returns false before touching
fsm.data). -/
def load (ps : List MySQLPacket) (k : Nat) : Option (Bytes × Nat × Nat) :=
  match loadLoopF (ps.length + 1) ps k 0 with
  | none => none
  | some j => some (writeDataN ps k (j + 1 - k), k, j + 1 - k)

/-- Index k begins a logical body in the buffered frame list: it is 0 or
its predecessor is a terminator frame (payload shorter than the maximum
frame size). -/
def isBodyStart (ps : List MySQLPacket) (k : Nat) : Prop :=
  k = 0 ∨ (1 ≤ k ∧ k - 1 < ps.length ∧ (ps.getD (k - 1) default).Len < maxPacketSize)

/-! ### C1/C3/C5: the replay handler, ApplyEvent and its retry policy
(sqlreplay.go ApplyEvent lines 377-472, quit lines 524-551, handshake lines
485-494, ReplayEventAndWriteRes lines 284-297) -/

/-- An error from one interaction with the replay target, as ApplyEvent
classifies it: a driver mysql.MySQLError with its number and message; one of
the three sentinel errors whose unwrapping triggers the reconnect path
(context.DeadlineExceeded, sql.ErrConnDone, mysql.ErrInvalidConn); or any
other error. -/
inductive RErr where
  | mysqlE (num : Nat) (msg : String)
  | deadlineExceeded
  | connDone
  | invalidConn
  | otherE (msg : String)
deriving DecidableEq

/-- The connection-loss test of ApplyEvent (line 457): errors.Unwrap(err)
equals one of the three sentinels. -/
def isConnLoss : RErr → Bool
  | .deadlineExceeded => true
  | .connDone => true
  | .invalidConn => true
  | _ => false

/-- The lock-wait test of ApplyEvent (lines 396-399, 428-431): the error is
a mysql.MySQLError with number 1205. -/
def isLockWait : RErr → Bool
  | .mysqlE n _ => n == 1205
  | _ => false

/-- One row of a replay-side result (nullable display strings, as built by
ReadRowValues). -/
abbrev Row := List (Option String)

/-- The observable outcome of one execution attempt against the target (one
call of execute or stmtExecute): err is the error it returns; rows are the
rows drained into the replay-side buffer when it succeeds (on a failing
attempt the Go functions return before the rows.Next loop, so no rows are
appended). -/
structure Attempt where
  rows : List Row
  err : Option RErr
deriving DecidableEq

/-- The RETRYCOMQUERY goto loop of ApplyEvent (lines 391-405): run execute;
on a 1205 lock-wait error truncate the accumulated row buffer and jump back;
stop on success or on any other error.  Each iteration consumes one oracle
entry; the recursion is structural on the oracle list, and an exhausted
oracle (none) stands for a run longer than the supplied behaviour.  Result:
(number of execution attempts, residual error, final row buffer). -/
def retryComQuery : List Attempt → List Row → Option (Nat × Option RErr × List Row)
  | [], _ => none
  | a :: rest, buf =>
    match a.err with
    | none => some (1, none, buf ++ a.rows)
    | some e =>
      if isLockWait e then
        match retryComQuery rest [] with
        | none => none
        | some (n, res, cv) => some (n + 1, res, cv)
      else some (1, some e, buf)

/-- The RETRYCOMSTMTEXECUTE goto loop of ApplyEvent (lines 424-436), with
the same structure as the query loop: run stmtExecute, truncate the row
buffer and retry on 1205, stop on success or any other error. -/
def retryComStmtExecute : List Attempt → List Row → Option (Nat × Option RErr × List Row)
  | [], _ => none
  | a :: rest, buf =>
    match a.err with
    | none => some (1, none, buf ++ a.rows)
    | some e =>
      if isLockWait e then
        match retryComStmtExecute rest [] with
        | none => none
        | some (n, res, cv) => some (n + 1, res, cv)
      else some (1, some e, buf)

/-- One entry of the replay statement cache (sqlreplay.go statement): the
query text and whether a live server-side handle exists. -/
structure StmtEntry where
  query : String
  handle : Bool
deriving DecidableEq

/-- The connection-related state of a ReplayEventHandler: statement cache,
current schema, and whether the pinned connection and the pool are open. -/
structure SessionSt where
  stmts : List (String × StmtEntry)
  schema : String
  connOpen : Bool
  poolOpen : Bool
deriving DecidableEq

/-- Close every cached statement handle, keeping the query text. -/
def clearHandles (l : List (String × StmtEntry)) : List (String × StmtEntry) :=
  l.map (fun p => (p.1, { p.2 with handle := false }))

/-- Embeds quit(reconnect): close all cached handles, keeping the entries
(text preserved) when reconnect is true and deleting them otherwise; close
the pinned connection and the pool.  The schema field is untouched. -/
def quit (reconnect : Bool) (s : SessionSt) : SessionSt :=
  { stmts := if reconnect then clearHandles s.stmts else [],
    schema := s.schema, connOpen := false, poolOpen := false }

/-- Embeds handshake(schema): open a pool scoped to the schema, record the
schema, then get the pinned connection, which succeeds or fails according to
the supplied outcome r. -/
def handshake (schema : String) (r : Option RErr) (s : SessionSt) :
    SessionSt × Option RErr :=
  ({ s with schema := schema, poolOpen := true, connOpen := r.isNone }, r)

/-- The session state after one successful teardown-and-reconnect cycle:
handles cleared, text kept, schema preserved, connection and pool open. -/
def reconnected (s : SessionSt) : SessionSt :=
  { stmts := clearHandles s.stmts, schema := s.schema,
    connOpen := true, poolOpen := true }

/-- The session state after a teardown whose reconnect attempt failed:
handles cleared, pool reopened by handshake, pinned connection absent. -/
def reconnFailed (s : SessionSt) : SessionSt :=
  { stmts := clearHandles s.stmts, schema := s.schema,
    connOpen := false, poolOpen := true }

/-- The LOOP structure of ApplyEvent (lines 384-471): dispatch the event
(one oracle entry from ds gives the residual error of one full dispatch,
including any inner 1205 loop, which never leaves a residual 1205 error);
on a connection-loss-class error run quit(true), then handshake on the last
known schema (one oracle entry from hs); when the reconnect succeeds goto
LOOP re-runs the dispatch, when it fails its error is returned; any other
dispatch error, or success, returns immediately.  Result: final session
state, number of dispatch attempts, number of reconnect attempts, and the
error ApplyEvent returns.  Structural recursion on the dispatch oracle; an
exhausted oracle (none) stands for a run longer than the supplied
behaviour. -/
def applyLoop : SessionSt → List (Option RErr) → List (Option RErr) →
    Option (SessionSt × Nat × Nat × Option RErr)
  | _, [], _ => none
  | s, d :: ds, hs =>
    match d with
    | none => some (s, 1, 0, none)
    | some e =>
      if isConnLoss e then
        let s1 := quit true s
        match hs with
        | [] => none
        | hr :: hs2 =>
          match handshake s1.schema hr s1 with
          | (s2, some he) => some (s2, 1, 1, some he)
          | (s2, none) =>
            match applyLoop s2 ds hs2 with
            | none => none
            | some (s3, n, r, res) => some (s3, n + 1, r + 1, res)
      else some (s, 1, 0, some e)

/-- Lookup in the replay statement cache (Go map indexing by the event
statement id string). -/
def lookupStr : List (String × StmtEntry) → String → Option StmtEntry
  | [], _ => none
  | (k, v) :: rest, id => if k = id then some v else lookupStr rest id

/-- The EventStmtExecute case of ApplyEvent (lines 419-442): when the
statement id is cached, run the RETRYCOMSTMTEXECUTE loop; when it is
absent, return a fresh mysql.MySQLError with number 10000 and the formatted
message, before any server interaction.  Result: (error returned, final row
buffer, number of execution attempts made against the server). -/
def applyEventStmtExecute (stmts : List (String × StmtEntry)) (id : String)
    (attempts : List Attempt) : Option (Option RErr × List Row × Nat) :=
  match lookupStr stmts id with
  | some _ =>
    match retryComStmtExecute attempts [] with
    | none => none
    | some (n, res, cv) => some (res, cv, n)
  | none => some (some (.mysqlE 10000 (id ++ " is not exist , maybe prepare fail")), [], 0)

/-- The error fields of a replay-side result (stream.ReplayRes ErrNO and
ErrDesc; the other fields are not involved in the recording step). -/
structure ReplayRes where
  ErrNO : Nat
  ErrDesc : String
deriving DecidableEq

/-- The error-recording step of ReplayEventAndWriteRes (lines 286-294): a
mysql.MySQLError lands as its number and message on the replay-side result,
any other non-nil error as the 20000 sentinel pair; a nil error records
nothing. -/
def recordResult (err : Option RErr) (rr : ReplayRes) : ReplayRes :=
  match err with
  | none => rr
  | some (.mysqlE n m) => { rr with ErrNO := n, ErrDesc := m }
  | some _ =>
    { rr with
      ErrNO := 20000
      ErrDesc := "Failed to execute SQL and failed to convert to mysql error" }

end MR

namespace MR

/-- Claim C2: the spec invariant says a row is recorded by ReadRowValues only
after every column has been read and converted, and a partial row is never
appended.  The code violates this: err is overwritten by each conversion, so
a row whose first column fails to convert and whose second column converts
successfully ends the loop with err nil and the partial one-column row is
appended.  This theorem evaluates the embedded code at that failing input:
the appended row has 1 entry for a 2-column source row. -/
theorem claim_C2 :
    ReadRowValues [CellV.val none, CellV.val (some "x")] [] = [[some "x"]] ∧
    ([some "x"] : List (Option String)).length ≠
      ([CellV.val none, CellV.val (some "x")] : List CellV).length := by
  decide

/-- Claim C9: ConvertResToStr maps a null (absent) column and an empty-string
column to the same output string "", while the in-memory model built by
ReadRowValues keeps them distinguishable (null stored as absent, not ""). -/
theorem claim_C9 :
    ConvertResToStr [[none]] = [[""]] ∧
    ConvertResToStr [[some ""]] = [[""]] ∧
    ConvertResToStr [[none]] = ConvertResToStr [[some ""]] ∧
    ReadRowValues [CellV.null] [] = [[none]] ∧
    ReadRowValues [CellV.val (some "")] [] = [[some ""]] ∧
    ([[none]] : List (List (Option String))) ≠ [[some ""]] := by
  decide

/-- Claim C10: the claim states the two length-encoded integer decoders agree
whenever both succeed.  They do not: on the buffer fc 01 02 both succeed and
both consume all 3 bytes, but parseLengthEncodedInt assembles the two value
bytes little-endian (513) as the MySQL documentation cited in both source
comments prescribes, while readLenEncUint assembles them with the high byte
first (258).  This theorem evaluates both decoders at that failing input. -/
theorem claim_C10 :
    parseLengthEncodedInt [0xfc, 0x01, 0x02] = some (513, false, 3) ∧
    readLenEncUint [0xfc, 0x01, 0x02] = some (258, []) ∧
    (513 : Nat) ≠ 258 := by
  decide

/-- Claim C6: parseExecParams decodes NumParams values in order; a parameter
with its null-bitmap bit set decodes to null consuming no value bytes (the
unsigned tiny parameter after it still reads the first value byte); an
unsigned 1-byte parameter ff decodes to 255 and a signed one to -1
(signedness from the high bit of the companion flag byte); a 4-byte
little-endian 00000001 decodes to 1; a date parameter with length byte 4
decodes to the formatted year-month-day string. -/
theorem claim_C6 :
    parseExecParams ⟨1, "q", 2, none⟩ [1] [1, 0, 1, 0x80] [0xFF] =
      ExecParamsRes.ok [.pnull, .uintv 255] ∧
    parseExecParams ⟨1, "q", 1, none⟩ [0] [1, 0x80] [0xFF] =
      ExecParamsRes.ok [.uintv 255] ∧
    parseExecParams ⟨1, "q", 1, none⟩ [0] [1, 0] [0xFF] =
      ExecParamsRes.ok [.intv (-1)] ∧
    parseExecParams ⟨1, "q", 1, none⟩ [0] [3, 0] [1, 0, 0, 0] =
      ExecParamsRes.ok [.intv 1] ∧
    parseExecParams ⟨1, "q", 1, none⟩ [0] [10, 0] [4, 206, 7, 11, 25] =
      ExecParamsRes.ok [.timev "1998-11-25"] := by
  decide

/-- Every outcome of the post-parse step is in ComStmtExecute or Unknown. -/
theorem finishExec_state (stmts : List (Nat × StmtRec)) (stmt : StmtRec)
    (res : ExecParamsRes) :
    (finishExec stmts stmt res).state = StateComStmtExecute ∨
    (finishExec stmts stmt res).state = StateUnknown := by
  cases res <;> simp [finishExec]

/-- Claim C7: parseExecParams is total: its deferred recover turns every
panic of the body into the "malformed packet" error, so for all inputs the
result is a decoded list or an error value, never the crashed outcome; and
its caller handleComStmtExecuteNoLoad always leaves the session in either
ComStmtExecute or the non-terminal Unknown state (in particular every decode
error lands in Unknown, which differs from the terminal ComQuit). -/
theorem claim_C7 :
    (∀ (stmt : StmtRec) (nb pt pv : Bytes),
        parseExecParams stmt nb pt pv ≠ ExecParamsRes.crashed) ∧
    (∀ (stmts : List (Nat × StmtRec)) (payload : Bytes),
        (handleComStmtExecuteNoLoad stmts payload).state = StateComStmtExecute ∨
        (handleComStmtExecuteNoLoad stmts payload).state = StateUnknown) ∧
    StateUnknown ≠ StateComQuit := by
  refine ⟨?_, ?_, by decide⟩
  · intro stmt nb pt pv
    unfold parseExecParams
    cases parseExecParamsRaw stmt nb pt pv <;> simp
  · intro stmts payload
    unfold handleComStmtExecuteNoLoad
    repeat' split
    all_goals first
      | exact finishExec_state _ _ _
      | exact Or.inl rfl
      | exact Or.inr rfl

/-- Witness for claim C7: the totality statement applied at a concrete
malformed input (1 parameter, empty bitmap: the body panics indexing the
null bitmap, recover yields the "malformed packet" error). -/
theorem claim_C7_witness :
    parseExecParams ⟨1, "q", 1, none⟩ [] [] [] ≠ ExecParamsRes.crashed :=
  claim_C7.1 ⟨1, "q", 1, none⟩ [] [] []


/-- Claim C4: the step contract of Handle on one frame.  Terminal ComQuit
ignores the frame (state, buffer and scratch unchanged); a seq-0 frame
outside the two mid-result-read states resets the per-command scratch,
records the begin timestamp and makes the buffer exactly [pkt]; a frame
carrying the expected next sequence number is appended; any other frame
moves the state to SkipPacket and is discarded with the buffer unchanged.
The last conjunct ties nextSeq to the claim wording: on a nonempty buffer it
is the last buffered sequence number plus one, mod 256. -/
theorem claim_C4 (fsm : FSM) (pkt : MySQLPacket) :
    (fsm.state = StateComQuit →
      (Handle fsm pkt).state = fsm.state ∧
      (Handle fsm pkt).packets = fsm.packets ∧
      (Handle fsm pkt).pr = fsm.pr) ∧
    (fsm.state ≠ StateComQuit → pkt.Seq = 0 → fsm.state ≠ StateComQuery1 →
      fsm.state ≠ StateComStmtExecute1 →
      Handle fsm pkt = ⟨StateInit, fsm.state != StateInit, [pkt],
        ⟨false, 0, 0, pkt.Time, 0, false, false, false, false⟩⟩) ∧
    (fsm.state ≠ StateComQuit →
      ¬(pkt.Seq = 0 ∧ fsm.state ≠ StateComQuery1 ∧ fsm.state ≠ StateComStmtExecute1) →
      nextSeq fsm = pkt.Seq →
      Handle fsm pkt = { fsm with changed := false, packets := fsm.packets ++ [pkt] }) ∧
    (fsm.state ≠ StateComQuit →
      ¬(pkt.Seq = 0 ∧ fsm.state ≠ StateComQuery1 ∧ fsm.state ≠ StateComStmtExecute1) →
      nextSeq fsm ≠ pkt.Seq →
      Handle fsm pkt = { fsm with changed := false, state := StateSkipPacket }) ∧
    (∀ p, fsm.packets.getLast? = some p → nextSeq fsm = (p.Seq + 1) % 256) := by
  refine ⟨?_, ?_, ?_, ?_, ?_⟩
  · intro h
    simp [Handle, h]
  · intro h1 h2 h3 h4
    simp [Handle, h1, h2, h3, h4, InitValue, setState, freshPacketRes]
  · intro h1 h2 h3
    simp only [Handle]
    rw [if_neg h1, if_neg (by simpa using h2), if_pos (by simpa using h3)]
  · intro h1 h2 h3
    simp only [Handle]
    rw [if_neg h1, if_neg (by simpa using h2), if_neg (by simpa using h3)]
    rfl
  · intro p hp
    simp [nextSeq, hp]

/-- Witness for claim C4: a seq-0 frame arriving in Init resets the scratch,
records its timestamp and leaves the buffer holding exactly that frame. -/
theorem claim_C4_witness :
    Handle ⟨StateInit, false, [], freshPacketRes⟩ ⟨0, 5, [3], 7, true⟩ =
      ⟨StateInit, false, [⟨0, 5, [3], 7, true⟩],
        ⟨false, 0, 0, 7, 0, false, false, false, false⟩⟩ :=
  (claim_C4 ⟨StateInit, false, [], freshPacketRes⟩ ⟨0, 5, [3], 7, true⟩).2.1
    (by decide) rfl (by decide) (by decide)


/-- Characterization of the inner scan of load, by induction on the
iteration count: with n = ps.length - j the scan returns none exactly when
every frame from index j on has a maximum-size payload, and returns some r
exactly for the first index r at or after j whose payload is not
maximum-size. -/
theorem seekEndN_spec (ps : List MySQLPacket) :
    ∀ (n j : Nat), n = ps.length - j →
      ((seekEndN ps j n = none ↔
          ∀ m, j ≤ m → m < ps.length → (ps.getD m default).Len = maxPacketSize) ∧
        (∀ r, seekEndN ps j n = some r →
          j ≤ r ∧ r < ps.length ∧ (ps.getD r default).Len ≠ maxPacketSize ∧
          ∀ m, j ≤ m → m < r → (ps.getD m default).Len = maxPacketSize)) := by
  intro n
  induction n with
  | zero =>
    intro j hn
    refine ⟨⟨fun _ m hjm hm => absurd hm (by omega), fun _ => rfl⟩, ?_⟩
    intro r hr
    simp [seekEndN] at hr
  | succ n ih =>
    intro j hn
    have hj : j < ps.length := by omega
    by_cases hmax : (ps.getD j default).Len = maxPacketSize
    · have heq : seekEndN ps j (n + 1) = seekEndN ps (j + 1) n := by
        simp only [seekEndN]
        rw [if_pos hmax]
      have hrec := ih (j + 1) (by omega)
      constructor
      · rw [heq, hrec.1]
        constructor
        · intro h m hjm hm
          rcases Nat.eq_or_lt_of_le hjm with rfl | hlt
          · exact hmax
          · exact h m hlt hm
        · intro h m hjm hm
          exact h m (by omega) hm
      · intro r hr
        rw [heq] at hr
        obtain ⟨h1, h2, h3, h4⟩ := hrec.2 r hr
        refine ⟨by omega, h2, h3, ?_⟩
        intro m hjm hm
        rcases Nat.eq_or_lt_of_le hjm with rfl | hlt
        · exact hmax
        · exact h4 m hlt hm
    · have heq : seekEndN ps j (n + 1) = some j := by
        simp only [seekEndN]
        rw [if_neg hmax]
      constructor
      · constructor
        · intro h
          rw [heq] at h
          exact absurd h (by simp)
        · intro h
          exact absurd (h j le_rfl hj) hmax
      · intro r hr
        rw [heq] at hr
        injection hr with hr
        subst hr
        exact ⟨le_rfl, hj, hmax, fun m h1 h2 => absurd h2 (by omega)⟩

/-- seekEnd returns none exactly when no terminator frame exists at or after
index j. -/
theorem seekEnd_none_iff (ps : List MySQLPacket) (j : Nat) :
    seekEnd ps j = none ↔
      ∀ m, j ≤ m → m < ps.length → (ps.getD m default).Len = maxPacketSize :=
  (seekEndN_spec ps (ps.length - j) j rfl).1

/-- seekEnd returns the first terminator index at or after j. -/
theorem seekEnd_some_spec (ps : List MySQLPacket) (j r : Nat)
    (h : seekEnd ps j = some r) :
    j ≤ r ∧ r < ps.length ∧ (ps.getD r default).Len ≠ maxPacketSize ∧
      ∀ m, j ≤ m → m < r → (ps.getD m default).Len = maxPacketSize :=
  (seekEndN_spec ps (ps.length - j) j rfl).2 r h

/-- On a body-start index k the outer loop of load reduces to the inner scan
from k: the outer loop walks exactly the segment starts, and k is one of
them. -/
theorem loadLoopF_bodyStart (ps : List MySQLPacket) (k : Nat) (hb : isBodyStart ps k) :
    ∀ f i, i ≤ k → k - i < f → loadLoopF f ps k i = seekEnd ps k := by
  intro f
  induction f with
  | zero => intro i h1 h2; omega
  | succ f ih =>
    intro i hik hf
    rcases Nat.eq_or_lt_of_le hik with rfl | hlt
    · by_cases hkl : i < ps.length
      · cases hse : seekEnd ps i with
        | none => simp [loadLoopF, hkl, hse]
        | some j => simp [loadLoopF, hkl, hse]
      · have h0 : ps.length - i = 0 := by omega
        have hnone : seekEnd ps i = none := by
          unfold seekEnd
          rw [h0]
          rfl
        simp [loadLoopF, hkl, hnone]
    · rcases hb with rfl | ⟨hk1, hklen, hterm⟩
      · omega
      have hterm2 : (ps.getD (k - 1) default).Len ≠ maxPacketSize := Nat.ne_of_lt hterm
      have hilen : i < ps.length := by omega
      cases hse : seekEnd ps i with
      | none =>
        exact absurd ((seekEnd_none_iff ps i).mp hse (k - 1) (by omega) hklen) hterm2
      | some j =>
        obtain ⟨hij, hjlen, hjterm, hmin⟩ := seekEnd_some_spec ps i j hse
        have hjk : j + 1 ≤ k := by
          by_contra hc
          push_neg at hc
          exact hterm2 (hmin (k - 1) (by omega) (by omega))
        have hne : ¬ i = k := by omega
        have heq : loadLoopF (f + 1) ps k i = loadLoopF f ps k (j + 1) := by
          simp [loadLoopF, hilen, hse, hne]
        rw [heq]
        exact ih (j + 1) hjk (by omega)

/-- The write-out loop of load concatenates exactly the payloads of the n
frames starting at index k. -/
theorem writeDataN_eq (ps : List MySQLPacket) :
    ∀ (n k : Nat), k + n ≤ ps.length →
      writeDataN ps k n = (((ps.drop k).take n).map MySQLPacket.Data).flatten := by
  intro n
  induction n with
  | zero => intro k h; simp [writeDataN]
  | succ n ih =>
    intro k h
    have hk : k < ps.length := by omega
    rw [List.drop_eq_getElem_cons hk, List.take_succ_cons, List.map_cons,
      List.flatten_cons]
    rw [writeDataN, ih (k + 1) (by omega), List.getD_eq_getElem ps default hk]

/-- Claim C8: for every buffered frame list (payloads bounded by the maximum
frame size) and every index k that begins a logical body, load(k) accumulates
consecutive maximum-size frames from k, stops at the first shorter frame j,
and on success loads exactly the concatenation of the payloads of frames
k..j, returning start k and count j-k+1; it fails, loading nothing, exactly
when the scan runs off the end of the buffer without a terminator. -/
theorem claim_C8 (ps : List MySQLPacket) (k : Nat)
    (hbnd : ∀ p ∈ ps, p.Len ≤ maxPacketSize) (hb : isBodyStart ps k) :
    (∀ j, seekEnd ps k = some j →
      k ≤ j ∧ j < ps.length ∧ (ps.getD j default).Len < maxPacketSize ∧
      (∀ m, k ≤ m → m < j → (ps.getD m default).Len = maxPacketSize) ∧
      load ps k = some ((((ps.drop k).take (j + 1 - k)).map MySQLPacket.Data).flatten,
        k, j + 1 - k)) ∧
    (seekEnd ps k = none →
      (∀ m, k ≤ m → m < ps.length → (ps.getD m default).Len = maxPacketSize) ∧
      load ps k = none) := by
  have hkle : k ≤ ps.length := by
    rcases hb with rfl | ⟨h1, h2, _⟩ <;> omega
  have hload : loadLoopF (ps.length + 1) ps k 0 = seekEnd ps k :=
    loadLoopF_bodyStart ps k hb (ps.length + 1) 0 (Nat.zero_le k) (by omega)
  constructor
  · intro j hse
    obtain ⟨h1, h2, h3, h4⟩ := seekEnd_some_spec ps k j hse
    have hmem : ps.getD j default ∈ ps := by
      rw [List.getD_eq_getElem ps default h2]
      exact List.getElem_mem h2
    have hlt : (ps.getD j default).Len < maxPacketSize :=
      Nat.lt_of_le_of_ne (hbnd _ hmem) h3
    refine ⟨h1, h2, hlt, h4, ?_⟩
    unfold load
    rw [hload, hse]
    dsimp only
    rw [writeDataN_eq ps (j + 1 - k) k (by omega)]
  · intro hse
    refine ⟨(seekEnd_none_iff ps k).mp hse, ?_⟩
    unfold load
    rw [hload, hse]

/-- Witness for claim C8: a two-frame buffer whose first frame is
maximum-size and whose second is the terminator; load 0 returns the
concatenation of both payloads with count 2. -/
theorem claim_C8_witness :
    load [⟨0, maxPacketSize, [1], 0, true⟩, ⟨1, 2, [2, 3], 0, true⟩] 0 =
      some ([1, 2, 3], 0, 2) :=
  ((claim_C8 [⟨0, maxPacketSize, [1], 0, true⟩, ⟨1, 2, [2, 3], 0, true⟩] 0
    (by decide) (Or.inl rfl)).1 1 rfl).2.2.2.2


/-- Clearing statement handles is idempotent. -/
theorem clearHandles_idem (l : List (String × StmtEntry)) :
    clearHandles (clearHandles l) = clearHandles l := by
  induction l with
  | nil => rfl
  | cons a t ih =>
    simp [clearHandles] at ih ⊢

/-- One connection-loss iteration of the ApplyEvent LOOP with a successful
reconnect: tear down keeping statement text, reconnect on the last known
schema, and re-dispatch from the reconnected state. -/
theorem applyLoop_connLoss_step (s : SessionSt) (c : RErr) (hc : isConnLoss c = true)
    (ds hs : List (Option RErr)) :
    applyLoop s (some c :: ds) (none :: hs) =
      match applyLoop (reconnected s) ds hs with
      | none => none
      | some (s3, n, r, res) => some (s3, n + 1, r + 1, res) := by
  simp [applyLoop, hc, quit, handshake, reconnected]

/-- Claim C3: the lock-wait retry loops.  A target behaviour of exactly N
lock-wait (1205) failures followed by a success yields exactly N+1 execution
attempts with no cap, the row buffer is truncated before each retry (after
at least one retry only the final attempt rows remain), and the loop stops
immediately on success or on a failure with any other error, for both the
Query and the Execute retry loops. -/
theorem claim_C3 :
    (∀ (N : Nat) (rows : List Row) (msg : String) (buf : List Row),
      retryComQuery
          (List.replicate N ⟨[], some (.mysqlE 1205 msg)⟩ ++ [⟨rows, none⟩]) buf =
        some (N + 1, none, if N = 0 then buf ++ rows else rows)) ∧
    (∀ (N : Nat) (rows : List Row) (msg : String) (buf : List Row),
      retryComStmtExecute
          (List.replicate N ⟨[], some (.mysqlE 1205 msg)⟩ ++ [⟨rows, none⟩]) buf =
        some (N + 1, none, if N = 0 then buf ++ rows else rows)) ∧
    (∀ (a : Attempt) (rest : List Attempt) (buf : List Row) (e : RErr),
      a.err = some e → isLockWait e = false →
      retryComQuery (a :: rest) buf = some (1, some e, buf)) ∧
    (∀ (a : Attempt) (rest : List Attempt) (buf : List Row),
      a.err = none → retryComQuery (a :: rest) buf = some (1, none, buf ++ a.rows)) ∧
    (∀ (a : Attempt) (rest : List Attempt) (buf : List Row) (e : RErr),
      a.err = some e → isLockWait e = false →
      retryComStmtExecute (a :: rest) buf = some (1, some e, buf)) ∧
    (∀ (a : Attempt) (rest : List Attempt) (buf : List Row),
      a.err = none →
      retryComStmtExecute (a :: rest) buf = some (1, none, buf ++ a.rows)) := by
  refine ⟨?_, ?_, ?_, ?_, ?_, ?_⟩
  · intro N
    induction N with
    | zero => intro rows msg buf; simp [retryComQuery]
    | succ n ih =>
      intro rows msg buf
      have h := ih rows msg []
      simp only [List.nil_append, ite_self] at h
      simp [List.replicate_succ, retryComQuery, isLockWait, h]
  · intro N
    induction N with
    | zero => intro rows msg buf; simp [retryComStmtExecute]
    | succ n ih =>
      intro rows msg buf
      have h := ih rows msg []
      simp only [List.nil_append, ite_self] at h
      simp [List.replicate_succ, retryComStmtExecute, isLockWait, h]
  · intro a rest buf e h1 h2
    simp [retryComQuery, h1, h2]
  · intro a rest buf h1
    simp [retryComQuery, h1]
  · intro a rest buf e h1 h2
    simp [retryComStmtExecute, h1, h2]
  · intro a rest buf h1
    simp [retryComStmtExecute, h1]

/-- Witness for claim C3: a single failure with a non-lock-wait error (1062)
stops the query retry loop at one attempt, leaving the buffer unchanged. -/
theorem claim_C3_witness :
    retryComQuery [⟨[], some (.mysqlE 1062 "dup")⟩] [[some "a"]] =
      some (1, some (.mysqlE 1062 "dup"), [[some "a"]]) :=
  claim_C3.2.2.1 ⟨[], some (.mysqlE 1062 "dup")⟩ [] [[some "a"]]
    (.mysqlE 1062 "dup") rfl rfl

/-- Claim C1 counterexample: the claim says a connection-loss failure causes
one reconnect and exactly one retry, and a failing retry is recorded as the
final outcome.  On the code, a retry that fails with another connection-loss
fault reconnects and retries again: with the target failing twice with
connection-closed then succeeding, ApplyEvent makes 3 dispatch attempts and
2 reconnects and ends in success, where the claim requires stopping after
the single allowed retry (at most 2 attempts, 1 reconnect). -/
theorem claim_C1_counterexample :
    applyLoop ⟨[("7", ⟨"SELECT 1", true⟩)], "test", true, true⟩
        [some RErr.connDone, some RErr.connDone, none] [none, none] =
      some (⟨[("7", ⟨"SELECT 1", false⟩)], "test", true, true⟩, 3, 2, none) ∧
    ¬ ((3 : Nat) ≤ 2 ∧ (2 : Nat) ≤ 1) := by
  decide

/-- Claim C1 as amended: a connection-loss-class dispatch failure triggers
teardown (handles closed, text kept), one reconnect on the last known
schema, and a retry of the same event; this repeats as long as retries keep
failing with connection-loss faults and reconnects succeed, without a cap;
the first non-connection-loss dispatch outcome (success or any other error)
is final, and a failed reconnect ends the loop with the reconnect error as
the final outcome.  Part 1: k connection-loss failures followed by a final
outcome d yield k+1 dispatch attempts, k reconnects, final outcome d, with
the schema preserved and the cached statement handles cleared.  Part 2: a
failed reconnect returns its error after one dispatch and one reconnect
attempt. -/
theorem claim_C1_amended :
    (∀ (s : SessionSt) (k : Nat) (c : RErr) (d : Option RErr) (hs : List (Option RErr)),
      isConnLoss c = true →
      (∀ e, d = some e → isConnLoss e = false) →
      applyLoop s (List.replicate k (some c) ++ [d]) (List.replicate k none ++ hs) =
        some ((if k = 0 then s else reconnected s), k + 1, k, d)) ∧
    (∀ (s : SessionSt) (c : RErr) (he : RErr) (ds hs : List (Option RErr)),
      isConnLoss c = true →
      applyLoop s (some c :: ds) (some he :: hs) =
        some (reconnFailed s, 1, 1, some he)) := by
  constructor
  · intro s k
    induction k generalizing s with
    | zero =>
      intro c d hs hc hd
      cases d with
      | none => simp [applyLoop]
      | some e => simp [applyLoop, hd e rfl]
    | succ n ih =>
      intro c d hs hc hd
      have hih := ih (reconnected s) c d hs hc hd
      have hidem : reconnected (reconnected s) = reconnected s := by
        simp [reconnected, clearHandles_idem]
      rw [hidem, ite_self] at hih
      rw [List.replicate_succ, List.replicate_succ, List.cons_append, List.cons_append,
        applyLoop_connLoss_step s c hc, hih]
      simp
  · intro s c he ds hs hc
    simp [applyLoop, hc, quit, handshake, reconnFailed]

/-- Witness for claim C1 (amended): one invalid-connection failure then
success yields two dispatch attempts, one reconnect, a preserved schema and
cleared handles. -/
theorem claim_C1_witness :
    applyLoop ⟨[("7", ⟨"SELECT 1", true⟩)], "test", true, true⟩
        [some RErr.invalidConn, none] [none] =
      some (reconnected ⟨[("7", ⟨"SELECT 1", true⟩)], "test", true, true⟩, 2, 1, none) :=
  claim_C1_amended.1 ⟨[("7", ⟨"SELECT 1", true⟩)], "test", true, true⟩ 1
    RErr.invalidConn none [] rfl (fun _ h => nomatch h)

/-- Claim C5: an Execute event whose statement id is absent from the replay
statement cache returns the synthesized statement-not-found fault with the
fixed sentinel number 10000 and the formatted message, with zero execution
attempts against the server, and the recording step of
ReplayEventAndWriteRes lands exactly that number and message on the event
replay-side result. -/
theorem claim_C5 (stmts : List (String × StmtEntry)) (id : String)
    (attempts : List Attempt) (rr : ReplayRes) (h : lookupStr stmts id = none) :
    applyEventStmtExecute stmts id attempts =
      some (some (.mysqlE 10000 (id ++ " is not exist , maybe prepare fail")), [], 0) ∧
    (recordResult (some (.mysqlE 10000 (id ++ " is not exist , maybe prepare fail")))
        rr).ErrNO = 10000 ∧
    (recordResult (some (.mysqlE 10000 (id ++ " is not exist , maybe prepare fail")))
        rr).ErrDesc = id ++ " is not exist , maybe prepare fail" := by
  refine ⟨?_, rfl, rfl⟩
  simp [applyEventStmtExecute, h]

/-- Witness for claim C5: executing id 99 with an empty-handled cache holding
only id 1 yields the local 10000 fault with zero server attempts. -/
theorem claim_C5_witness :
    applyEventStmtExecute [("1", ⟨"q", true⟩)] "99" [] =
      some (some (.mysqlE 10000 ("99" ++ " is not exist , maybe prepare fail")), [], 0) :=
  (claim_C5 [("1", ⟨"q", true⟩)] "99" [] ⟨0, ""⟩ (by decide)).1

end MR
